import Mathlib

/-!
Shallow embedding of the summary-generation subsystem of the medical-records
backend: the SOAP structural parser (`app/utils/soap_parser.py`), the
fallback-aware generation facade (`app/utils/llm_client.py`), provider
selection (`app/providers/factory.py`), summary orchestration
(`app/services/summary_service.py`) and the async job wrapper
(`app/worker/tasks.py`).

Python strings are modelled as Lean `String`; Python exceptions as `Except`
values; the database as an explicit store threaded through repository
operations; the provider transport as an abstract call function supplied as a
parameter.
-/

namespace MedBackend

/-! ## Python string primitives -/

/-- Python `str.lower()` restricted to ASCII (all section markers and all
inputs of interest are ASCII). -/
def pyLower (s : String) : String :=
  (s.data.map Char.toLower).asString

/-- Whitespace characters stripped by Python `str.strip()`. -/
def isPyWhitespace (c : Char) : Bool :=
  c = ' ' || c = '\t' || c = '\n' || c = '\r' || c = '\x0b' || c = '\x0c'

/-- Python `str.strip()`: remove leading and trailing whitespace. -/
def pyStrip (s : String) : String :=
  (((s.data.dropWhile isPyWhitespace).reverse.dropWhile isPyWhitespace).reverse).asString

/-- Substring test on character lists: `containsSub needle hay` is true iff
`needle` occurs contiguously inside `hay`. -/
def containsSub (needle : List Char) : List Char → Bool
  | [] => needle.isEmpty
  | c :: t => needle.isPrefixOf (c :: t) || containsSub needle t

/-- Python `needle in hay` on strings. -/
def pyContains (hay needle : String) : Bool :=
  containsSub needle.data hay.data

/-- Python `text.split("\n")` on character lists; always returns at least one
piece, and a trailing newline yields a trailing empty piece. -/
def splitNewlineAux : List Char → List (List Char)
  | [] => [[]]
  | c :: rest =>
    if c = '\n' then [] :: splitNewlineAux rest
    else
      match splitNewlineAux rest with
      | [] => [[c]]
      | h :: t => (c :: h) :: t

/-- Python `text.split("\n")` on strings. -/
def pySplitLines (s : String) : List String :=
  (splitNewlineAux s.data).map List.asString

/-- Python `sep.join(parts)`. -/
def pyJoin (sep : String) (parts : List String) : String :=
  String.intercalate sep parts

/-! ## SOAP structural parser (`app/utils/soap_parser.py`) -/

/-- The four SOAP sections. -/
inductive Section where
  | subjective
  | objective
  | assessment
  | plan
deriving DecidableEq, Repr

/-- Parsed SOAP note (dataclass `SOAPNote`). -/
structure SOAPNote where
  subjective : String
  objective : String
  assessment : String
  plan : String
deriving DecidableEq, Repr

/-- The `sections` dict of `parse_soap_note`: four accumulated strings. -/
structure SectionsMap where
  subjective : String := ""
  objective : String := ""
  assessment : String := ""
  plan : String := ""
deriving DecidableEq, Repr

def SectionsMap.get (m : SectionsMap) : Section → String
  | .subjective => m.subjective
  | .objective => m.objective
  | .assessment => m.assessment
  | .plan => m.plan

def SectionsMap.set (m : SectionsMap) : Section → String → SectionsMap
  | .subjective, v => { m with subjective := v }
  | .objective, v => { m with objective := v }
  | .assessment, v => { m with assessment := v }
  | .plan, v => { m with plan := v }

/-- Header classification performed by the branch chain of `parse_soap_note`:
the lowercased stripped line is tested for the full-word markers and the
two-character abbreviations, in the fixed order
subjective / objective / assessment / plan. -/
def parserHeaderOf (line : String) : Option Section :=
  let l := pyStrip (pyLower line)
  if pyContains l "subjective" || pyContains l "s:" then some .subjective
  else if pyContains l "objective" || pyContains l "o:" then some .objective
  else if pyContains l "assessment" || pyContains l "a:" then some .assessment
  else if pyContains l "plan" || pyContains l "p:" then some .plan
  else none

/-- Loop state of `parse_soap_note`: the `sections` dict, the
`current_section` cursor and the `current_content` buffer. -/
structure ParseState where
  sections : SectionsMap
  current : Option Section
  buffer : List String
deriving DecidableEq, Repr

/-- Flush of `parse_soap_note`: `sections[current_section] =
"\n".join(current_content).strip()`. -/
def flushInto (m : SectionsMap) (cur : Option Section) (buf : List String) : SectionsMap :=
  match cur with
  | some sec => m.set sec (pyStrip (pyJoin "\n" buf))
  | none => m

/-- One iteration of the line loop of `parse_soap_note`. -/
def parseStep (st : ParseState) (line : String) : ParseState :=
  match parserHeaderOf line with
  | some sec =>
    { sections := flushInto st.sections st.current st.buffer
      current := some sec
      buffer := [] }
  | none =>
    match st.current with
    | some _ => { st with buffer := st.buffer ++ [line] }
    | none => st

/-- The `sections` dict at the end of `parse_soap_note` (after the loop and
the final flush). -/
def parseSections (content : String) : SectionsMap :=
  let st := (pySplitLines content).foldl parseStep ⟨{}, none, []⟩
  flushInto st.sections st.current st.buffer

/-- `parse_soap_note(content)`: returns `None` iff all four sections are
empty after the scan. -/
def parse_soap_note (content : String) : Option SOAPNote :=
  let m := parseSections content
  if m.subjective = "" ∧ m.objective = "" ∧ m.assessment = "" ∧ m.plan = "" then
    none
  else
    some ⟨m.subjective, m.objective, m.assessment, m.plan⟩

/-- `is_valid_soap(content)`. -/
def is_valid_soap (content : String) : Bool :=
  (parse_soap_note content).isSome

/-! ## Rule-based fallback generator (`app/utils/llm_client.py`) -/

/-- The `sections` dict of `_generate_rule_based`: four lists of collected
(stripped, non-blank) lines. -/
structure SectionLists where
  subjective : List String := []
  objective : List String := []
  assessment : List String := []
  plan : List String := []
deriving DecidableEq, Repr

def SectionLists.get (m : SectionLists) : Section → List String
  | .subjective => m.subjective
  | .objective => m.objective
  | .assessment => m.assessment
  | .plan => m.plan

def SectionLists.add (m : SectionLists) : Section → String → SectionLists
  | .subjective, v => { m with subjective := m.subjective ++ [v] }
  | .objective, v => { m with objective := m.objective ++ [v] }
  | .assessment, v => { m with assessment := m.assessment ++ [v] }
  | .plan, v => { m with plan := m.plan ++ [v] }

/-- Header classification performed by the branch chain of
`_generate_rule_based`: only the four full-word markers are tested (no
two-character abbreviations), in the same fixed order as the parser. -/
def fallbackHeaderOf (line : String) : Option Section :=
  let l := pyStrip (pyLower line)
  if pyContains l "subjective" then some .subjective
  else if pyContains l "objective" then some .objective
  else if pyContains l "assessment" then some .assessment
  else if pyContains l "plan" then some .plan
  else none

/-- One iteration of the line loop of `_generate_rule_based`. -/
def fallbackStep (st : SectionLists × Option Section) (line : String) :
    SectionLists × Option Section :=
  match fallbackHeaderOf line with
  | some sec => (st.1, some sec)
  | none =>
    match st.2 with
    | some cur =>
      if pyStrip line ≠ "" then (st.1.add cur (pyStrip line), some cur) else st
    | none => st

/-- The `sections` dict at the end of the line loop of
`_generate_rule_based`. -/
def fallbackSections (notes_text : String) : SectionLists :=
  ((pySplitLines notes_text).foldl fallbackStep ({}, none)).1

/-- Fixed disclaimer appended by `_generate_rule_based` when no SOAP section
was recognized. -/
def parseDisclaimer : String :=
  "Clinical notes are available but could not be parsed into SOAP format. Please review individual notes for details."

/-- `_generate_rule_based(patient_name, age, notes_text, audience)`. -/
def generate_rule_based (patient_name : String) (age : Int) (notes_text : String)
    (_audience : String) : String :=
  let sections := fallbackSections notes_text
  let parts0 := [s!"Patient {patient_name}, {age} years old."]
  let parts1 :=
    if sections.assessment ≠ [] then
      parts0 ++ ["Assessment: " ++ pyJoin " " (sections.assessment.take 3)]
    else parts0
  let parts2 :=
    if sections.plan ≠ [] then
      parts1 ++ ["Plan: " ++ pyJoin " " (sections.plan.take 3)]
    else parts1
  let parts3 :=
    if sections.subjective ≠ [] then
      let chief := sections.subjective.headD ""
      if chief ≠ "" then parts2 ++ ["Chief complaint: " ++ chief] else parts2
    else parts2
  let parts4 :=
    if sections.subjective = [] ∧ sections.objective = [] ∧
        sections.assessment = [] ∧ sections.plan = [] then
      parts3 ++ [parseDisclaimer]
    else parts3
  pyJoin " " parts4

/-- Modelled from the spec's description of the fallback summary parts ("4.4
Fallback-Aware Generation Facade", steps 1-5): the header sentence, then the
optional Assessment, Plan and Chief-complaint parts, then the disclaimer when
no section was found at all. Stated from the spec's words, to be compared
with `generate_rule_based` (translated from the source). -/
def ruleBasedPartsSpec (patient_name : String) (age : Int) (secs : SectionLists) :
    List String :=
  [s!"Patient {patient_name}, {age} years old."]
    ++ (if secs.assessment ≠ [] then
          ["Assessment: " ++ pyJoin " " (secs.assessment.take 3)]
        else [])
    ++ (if secs.plan ≠ [] then
          ["Plan: " ++ pyJoin " " (secs.plan.take 3)]
        else [])
    ++ (if secs.subjective ≠ [] then
          ["Chief complaint: " ++ secs.subjective.headD ""]
        else [])
    ++ (if secs.subjective = [] ∧ secs.objective = [] ∧
          secs.assessment = [] ∧ secs.plan = [] then
          [parseDisclaimer]
        else [])

/-- Invariant of the fallback's collected sections: every collected line is
non-blank (the loop only appends `line.strip()` when it is truthy). -/
def SectionLists.nonblank (m : SectionLists) : Prop :=
  (∀ l ∈ m.subjective, l ≠ "") ∧ (∀ l ∈ m.objective, l ≠ "") ∧
    (∀ l ∈ m.assessment, l ≠ "") ∧ (∀ l ∈ m.plan, l ≠ "")

/-! ## Provider selection (`app/providers/factory.py`) -/

/-- The three concrete providers instantiable by the factory. -/
inductive LLMProvider where
  | ollama
  | openai
  | anthropic
deriving DecidableEq, Repr

/-- Failures raised by provider selection or by a provider call. Selection
raises `ValueError`s (modelled as `configError` / `unsupportedProvider`
according to their message); a provider call can fail with a transport error
or a malformed response. -/
inductive LLMFailure where
  | configError (msg : String)
  | unsupportedProvider (msg : String)
  | transportError (msg : String)
  | malformedResponse (msg : String)
deriving DecidableEq, Repr

/-- Configuration surface consumed by the factory (`app/core/settings.py`):
the active-provider selector and the two optional hosted-API credentials. -/
structure Settings where
  LLM_PROVIDER : String
  OPENAI_API_KEY : Option String
  ANTHROPIC_API_KEY : Option String
deriving DecidableEq, Repr

/-- Python truthiness of an `Optional[str]` value: `None` and `""` are
falsy. -/
def pyTruthyOptStr : Option String → Bool
  | none => false
  | some s => s ≠ ""

/-- `get_llm_provider()`: dispatch on the lowercased `LLM_PROVIDER` setting;
hosted backends require their API key to be set (truthy) before the provider
instance is constructed. -/
def get_llm_provider (s : Settings) : Except LLMFailure LLMProvider :=
  let provider_name := pyLower s.LLM_PROVIDER
  if provider_name = "ollama" then
    .ok .ollama
  else if provider_name = "openai" then
    if pyTruthyOptStr s.OPENAI_API_KEY then .ok .openai
    else .error (.configError "OPENAI_API_KEY required for OpenAI provider")
  else if provider_name = "anthropic" then
    if pyTruthyOptStr s.ANTHROPIC_API_KEY then .ok .anthropic
    else .error (.configError "ANTHROPIC_API_KEY required for Anthropic provider")
  else
    .error (.unsupportedProvider ("Unsupported LLM provider: " ++ provider_name))

/-! ## Fallback-aware facade (`app/utils/llm_client.py`) -/

/-- Abstract behaviour of `provider.generate_summary(...)`: the transport and
response parsing of the three backends are external collaborators, so the
call is a parameter mapping a provider and the request fields to either a
generated text or a failure. -/
def ProviderCall : Type :=
  LLMProvider → String → Int → String → String → Int → Except LLMFailure String

/-- `generate_summary(patient_name, age, notes_text, audience, max_length)`:
select a provider and invoke it inside `try`; any failure of selection or of
the call is caught and answered by the rule-based fallback. -/
def generate_summary (s : Settings) (call : ProviderCall) (patient_name : String)
    (age : Int) (notes_text : String) (audience : String) (max_length : Int) :
    String :=
  match get_llm_provider s with
  | .ok provider =>
    match call provider patient_name age notes_text audience max_length with
    | .ok text => text
    | .error _ => generate_rule_based patient_name age notes_text audience
  | .error _ => generate_rule_based patient_name age notes_text audience

/-- Exception-aware view of the facade: each `return` path of the Python
function is an `.ok`, and there is no path on which an exception escapes the
`try/except Exception` block. -/
def generate_summary_exn (s : Settings) (call : ProviderCall) (patient_name : String)
    (age : Int) (notes_text : String) (audience : String) (max_length : Int) :
    Except LLMFailure String :=
  match get_llm_provider s with
  | .ok provider =>
    match call provider patient_name age notes_text audience max_length with
    | .ok text => .ok text
    | .error _ => .ok (generate_rule_based patient_name age notes_text audience)
  | .error _ => .ok (generate_rule_based patient_name age notes_text audience)

/-! ## Summary orchestration (`app/services/summary_service.py`) -/

/-- Python `datetime.date`: a calendar date. -/
structure PyDate where
  year : Int
  month : Nat
  day : Nat
deriving DecidableEq, Repr

/-- Clinical note timestamp (`datetime`), to minute precision, which is all
the orchestration reads (ordering and `%Y-%m-%d %H:%M` rendering). -/
structure PyDateTime where
  year : Nat
  month : Nat
  day : Nat
  hour : Nat
  minute : Nat
deriving DecidableEq, Repr

/-- Ordering key of a timestamp, lexicographic in its five fields. -/
def PyDateTime.key (t : PyDateTime) : Nat :=
  (((t.year * 13 + t.month) * 32 + t.day) * 24 + t.hour) * 60 + t.minute

/-- Zero-pad a numeral string to the given width. -/
def padZeros (width : Nat) (digits : String) : String :=
  if digits.length < width then
    (List.replicate (width - digits.length) '0').asString ++ digits
  else digits

/-- Python `strftime('%Y-%m-%d %H:%M')`. -/
def strftimeYMDHM (t : PyDateTime) : String :=
  padZeros 4 (toString t.year) ++ "-" ++ padZeros 2 (toString t.month) ++ "-" ++
    padZeros 2 (toString t.day) ++ " " ++ padZeros 2 (toString t.hour) ++ ":" ++
    padZeros 2 (toString t.minute)

/-- Python `f"{n:06d}"`. -/
def pyFormat06d (n : Int) : String :=
  if n < 0 then "-" ++ padZeros 5 (toString (-n)) else padZeros 6 (toString n)

/-- Stored patient row (`app/models/patient.py`), the fields the summary
subsystem reads. -/
structure Patient where
  id : Int
  name : String
  date_of_birth : PyDate
deriving DecidableEq, Repr

/-- Stored note row (`app/models/note.py`), the fields the summary subsystem
reads. -/
structure Note where
  patient_id : Int
  note_timestamp : PyDateTime
  content : String
deriving DecidableEq, Repr

/-- The persistence collaborator's visible state: the patient and note
stores. -/
structure Store where
  patients : List Patient
  notes : List Note
deriving DecidableEq, Repr

/-- `PatientRepository.get_by_id`: a read; returns the looked-up row and the
unchanged store. -/
def PatientRepository.get_by_id (db : Store) (patient_id : Int) :
    Option Patient × Store :=
  (db.patients.find? (fun p => p.id = patient_id), db)

/-- `NoteRepository.get_by_patient_id`: a read; the patient's notes ordered
ascending by clinical timestamp, and the unchanged store. -/
def NoteRepository.get_by_patient_id (db : Store) (patient_id : Int) :
    List Note × Store :=
  ((db.notes.filter (fun n => n.patient_id = patient_id)).mergeSort
      (fun a b => a.note_timestamp.key ≤ b.note_timestamp.key),
    db)

/-- `NoteRepository.create`: a write; appends the note and commits. -/
def NoteRepository.create (db : Store) (note : Note) : Note × Store :=
  (note, { db with notes := db.notes ++ [note] })

/-- `NoteRepository.delete_by_patient_id`: a write; removes the patient's
notes and commits. -/
def NoteRepository.delete_by_patient_id (db : Store) (patient_id : Int) :
    Nat × Store :=
  ((db.notes.filter (fun n => n.patient_id = patient_id)).length,
    { db with notes := db.notes.filter (fun n => ¬ n.patient_id = patient_id) })

/-- `SummaryOptions` (`app/schemas/summary.py`), with its defaults. -/
structure SummaryOptions where
  audience : String := "clinician"
  max_length : Int := 500
deriving DecidableEq, Repr

/-- `PatientHeading` (`app/schemas/summary.py`). -/
structure PatientHeading where
  name : String
  age : Int
  mrn : String
deriving DecidableEq, Repr

/-- `SummaryResponse` (`app/schemas/summary.py`). -/
structure SummaryResponse where
  heading : PatientHeading
  summary : String
  note_count : Nat
deriving DecidableEq, Repr

/-- `SummaryService._calculate_age(birth_date)`, with `date.today()` passed
explicitly: year difference, minus one when today's (month, day) precedes the
birth (month, day) in Python tuple (lexicographic) order. -/
def calculate_age (today : PyDate) (birth_date : PyDate) : Int :=
  let age := today.year - birth_date.year
  if today.month < birth_date.month ∨
      (today.month = birth_date.month ∧ today.day < birth_date.day) then
    age - 1
  else age

/-- One rendered note block of the concatenation:
`f"[{note.note_timestamp.strftime('%Y-%m-%d %H:%M')}]\n{note.content}"`. -/
def noteBlock (n : Note) : String :=
  "[" ++ strftimeYMDHM n.note_timestamp ++ "]\n" ++ n.content

/-- `SummaryService.generate_patient_summary(patient_id, options)`. The
clock (`today`), the configuration and the provider transport are passed as
explicit parameters; the store is threaded through the repository calls. -/
def generate_patient_summary (today : PyDate) (s : Settings) (call : ProviderCall)
    (db : Store) (patient_id : Int) (options : Option SummaryOptions) :
    Option SummaryResponse × Store :=
  let lookup := PatientRepository.get_by_id db patient_id
  match lookup.1 with
  | none => (none, lookup.2)
  | some patient =>
    let fetched := NoteRepository.get_by_patient_id lookup.2 patient_id
    let notes := fetched.1
    let age := calculate_age today patient.date_of_birth
    let mrn := "MRN-" ++ pyFormat06d patient_id
    let heading : PatientHeading := ⟨patient.name, age, mrn⟩
    let opts := options.getD {}
    let notes_text := pyJoin "\n\n" (notes.map noteBlock)
    let summary_text :=
      if notes ≠ [] then
        generate_summary s call patient.name age notes_text opts.audience
          opts.max_length
      else
        s!"No clinical notes available for {patient.name}."
    (some ⟨heading, summary_text, notes.length⟩, fetched.2)

/-! ## Async job wrapper (`app/worker/tasks.py`) -/

/-- Structured payload returned by `generate_summary_task`: either the
completed summary with its heading fields, or an error descriptor. -/
inductive TaskResult where
  | completed (name : String) (age : Int) (mrn : String) (summary : String)
      (note_count : Nat)
  | error (msg : String) (error_code : String)
deriving DecidableEq, Repr

/-- Session accounting for `get_db_session()`: how many sessions have been
acquired and how many released. -/
structure SessionCtr where
  opened : Nat := 0
  closed : Nat := 0
deriving DecidableEq, Repr

/-- `generate_summary_task(patient_id, audience, max_length)` over an
abstract orchestration outcome: `.ok (some r)` is a normal result, `.ok none`
is the absent-patient result, `.error e` is any exception raised during
orchestration. The `with get_db_session()` block acquires a session before
the body and releases it (its `finally`) on every exit path, normal or
exceptional, before the outer `except` handler runs. -/
def generate_summary_task (orch : Except String (Option SummaryResponse))
    (ctr : SessionCtr) : TaskResult × SessionCtr :=
  let ctrOpen := { ctr with opened := ctr.opened + 1 }
  let ctrDone := { ctrOpen with closed := ctrOpen.closed + 1 }
  match orch with
  | .ok none =>
    (.error "Patient not found" "PATIENT_NOT_FOUND", ctrDone)
  | .ok (some r) =>
    (.completed r.heading.name r.heading.age r.heading.mrn r.summary
        r.note_count,
      ctrDone)
  | .error e =>
    (.error e "GENERATION_FAILED", ctrDone)

/-- The async job wrapper running the real orchestration over the store:
`generate_summary_task` with `orch` instantiated to
`SummaryService.generate_patient_summary`, threading the store. -/
def generate_summary_task_db (today : PyDate) (s : Settings) (call : ProviderCall)
    (db : Store) (patient_id : Int) (audience : String) (max_length : Int) :
    TaskResult × Store :=
  let run :=
    generate_patient_summary today s call db patient_id
      (some ⟨audience, max_length⟩)
  match run.1 with
  | none => (.error "Patient not found" "PATIENT_NOT_FOUND", run.2)
  | some r =>
    (.completed r.heading.name r.heading.age r.heading.mrn r.summary
        r.note_count,
      run.2)

/-! ## Helper lemmas -/

theorem SectionLists.nonblank_add {m : SectionLists} (h : m.nonblank)
    {sec : Section} {v : String} (hv : v ≠ "") : (m.add sec v).nonblank := by
  obtain ⟨h1, h2, h3, h4⟩ := h
  cases sec <;>
    refine ⟨?_, ?_, ?_, ?_⟩ <;>
    simp only [SectionLists.add, List.mem_append, List.mem_singleton] <;>
    intro l hl <;>
    first
      | (rcases hl with hl | hl
         · first | exact h1 l hl | exact h2 l hl | exact h3 l hl | exact h4 l hl
         · subst hl; exact hv)
      | first | exact h1 l hl | exact h2 l hl | exact h3 l hl | exact h4 l hl

theorem fallbackStep_nonblank (st : SectionLists × Option Section) (line : String)
    (h : st.1.nonblank) : (fallbackStep st line).1.nonblank := by
  unfold fallbackStep
  cases fallbackHeaderOf line with
  | some sec => exact h
  | none =>
    cases hcur : st.2 with
    | none => exact h
    | some cur =>
      dsimp only
      by_cases hline : pyStrip line ≠ ""
      · rw [if_pos hline]
        exact SectionLists.nonblank_add h hline
      · rw [if_neg hline]
        exact h

theorem foldl_fallbackStep_nonblank (lines : List String)
    (st : SectionLists × Option Section) (h : st.1.nonblank) :
    ((lines.foldl fallbackStep st).1).nonblank := by
  induction lines generalizing st with
  | nil => exact h
  | cons l t ih => exact ih (fallbackStep st l) (fallbackStep_nonblank st l h)

theorem fallbackSections_nonblank (notes_text : String) :
    (fallbackSections notes_text).nonblank := by
  unfold fallbackSections
  exact foldl_fallbackStep_nonblank _ _ ⟨by simp, by simp, by simp, by simp⟩

theorem headD_ne_empty {xs : List String} (h : xs ≠ []) (hnb : ∀ l ∈ xs, l ≠ "") :
    xs.head?.getD "" ≠ "" := by
  cases xs with
  | nil => exact absurd rfl h
  | cons x t => exact hnb x (List.mem_cons_self x t)

theorem foldl_parseStep_no_header (lines : List String) (st : ParseState)
    (h : ∀ line ∈ lines, parserHeaderOf line = none) (hcur : st.current = none) :
    lines.foldl parseStep st = st := by
  induction lines with
  | nil => rfl
  | cons l t ih =>
    have hstep : parseStep st l = st := by
      unfold parseStep
      rw [h l (List.mem_cons_self l t), hcur]
    rw [List.foldl_cons, hstep]
    exact ih (fun line hline => h line (List.mem_cons_of_mem l hline))

/-! ## Claim theorems -/

/-- C1: for every combination of inputs, every configuration and every
behaviour of the provider transport (including any failure of provider
selection or of the provider call), the facade `generate_summary` never lets
an exception escape and always returns a string: its exception-aware
embedding always produces `.ok` of the value of the pure facade. The
fallback path is unconditional on both failure branches and performs only
string operations (`generate_rule_based` is a total string function). -/
theorem facade_never_raises (s : Settings) (call : ProviderCall)
    (patient_name : String) (age : Int) (notes_text audience : String)
    (max_length : Int) :
    generate_summary_exn s call patient_name age notes_text audience max_length =
      Except.ok
        (generate_summary s call patient_name age notes_text audience max_length) := by
  cases hsel : get_llm_provider s with
  | error e => simp [generate_summary_exn, generate_summary, hsel]
  | ok provider =>
    cases hcall : call provider patient_name age notes_text audience max_length with
    | error e => simp [generate_summary_exn, generate_summary, hsel, hcall]
    | ok text => simp [generate_summary_exn, generate_summary, hsel, hcall]

/-- C2: whenever provider selection or the selected provider's call fails
with any exception, the facade's output equals the result of calling the
rule-based fallback generator directly on the same patient name, age, notes
text and audience. Determinism of the fallback holds by construction here:
`generate_rule_based` is a pure function of exactly these four inputs. -/
theorem facade_failure_equals_fallback (s : Settings) (call : ProviderCall)
    (patient_name : String) (age : Int) (notes_text audience : String)
    (max_length : Int) (e : LLMFailure)
    (h : get_llm_provider s = .error e ∨
      ∃ provider, get_llm_provider s = .ok provider ∧
        call provider patient_name age notes_text audience max_length = .error e) :
    generate_summary s call patient_name age notes_text audience max_length =
      generate_rule_based patient_name age notes_text audience := by
  rcases h with hsel | ⟨provider, hsel, hcall⟩
  · simp [generate_summary, hsel]
  · simp [generate_summary, hsel, hcall]

/-- Witness for C2 at a concrete failing configuration: an unknown provider
name makes selection fail, and the facade answers with the fallback. -/
theorem facade_failure_equals_fallback_witness :
    generate_summary ⟨"mystery", none, none⟩ (fun _ _ _ _ _ _ => .ok "llm text")
        "Ann Example" 30 "Subjective:\nheadache" "clinician" 500 =
      generate_rule_based "Ann Example" 30 "Subjective:\nheadache" "clinician" :=
  facade_failure_equals_fallback ⟨"mystery", none, none⟩
    (fun _ _ _ _ _ _ => .ok "llm text") "Ann Example" 30 "Subjective:\nheadache"
    "clinician" 500 (.unsupportedProvider "Unsupported LLM provider: mystery")
    (Or.inl rfl)

/-- C3: the rule-based fallback summary is exactly the space-join of the
parts described by the claim: the `Patient {name}, {age} years old.` header
sentence first, then (each only when its section collected lines)
`Assessment: ` with the first three Assessment lines space-joined, `Plan: `
with the first three Plan lines space-joined, `Chief complaint: ` with the
first Subjective line, and the fixed could-not-parse disclaimer exactly when
no section collected any line. -/
theorem rule_based_summary_structure (patient_name : String) (age : Int)
    (notes_text audience : String) :
    generate_rule_based patient_name age notes_text audience =
      pyJoin " " (ruleBasedPartsSpec patient_name age (fallbackSections notes_text)) := by
  have hnb := fallbackSections_nonblank notes_text
  unfold generate_rule_based ruleBasedPartsSpec
  by_cases hS : (fallbackSections notes_text).subjective = []
  · by_cases hA : (fallbackSections notes_text).assessment = [] <;>
      by_cases hP : (fallbackSections notes_text).plan = [] <;>
      by_cases hO : (fallbackSections notes_text).objective = [] <;>
      simp [hS, hA, hP, hO]
  · have hch := headD_ne_empty hS hnb.1
    by_cases hA : (fallbackSections notes_text).assessment = [] <;>
      by_cases hP : (fallbackSections notes_text).plan = [] <;>
      by_cases hO : (fallbackSections notes_text).objective = [] <;>
      simp [hS, hA, hP, hO, hch]

/-- C9: age is whole-year calendar arithmetic — the year difference, minus
one exactly when today's (month, day) lexicographically precedes the birth
(month, day) — and at the fixed today 2024-06-15 the birth dates 1990-06-16,
1990-06-15 and 1990-06-14 yield 33, 34 and 34. -/
theorem age_calculation_correct (today birth_date : PyDate) :
    calculate_age today birth_date =
        today.year - birth_date.year -
          (if today.month < birth_date.month ∨
              (today.month = birth_date.month ∧ today.day < birth_date.day)
            then 1 else 0)
      ∧ calculate_age ⟨2024, 6, 15⟩ ⟨1990, 6, 16⟩ = 33
      ∧ calculate_age ⟨2024, 6, 15⟩ ⟨1990, 6, 15⟩ = 34
      ∧ calculate_age ⟨2024, 6, 15⟩ ⟨1990, 6, 14⟩ = 34 := by
  refine ⟨?_, by decide, by decide, by decide⟩
  unfold calculate_age
  by_cases h : today.month < birth_date.month ∨
      (today.month = birth_date.month ∧ today.day < birth_date.day)
  · rw [if_pos h, if_pos h]
  · rw [if_neg h, if_neg h]
    omega

/-- C4 counterexample: the text consisting of the single line `Subjective:`
contains a section marker as a header-like line (the parser classifies it as
a Subjective header), yet `parse_soap_note` returns absent, because the
header accumulates no content and all four sections end up empty. -/
theorem parse_header_only_absent :
    parserHeaderOf "Subjective:" = some Section.subjective ∧
      parse_soap_note "Subjective:" = none := by
  decide

/-- C4 amended: a text none of whose lines is classified as a header always
parses as absent; marker presence alone does not guarantee a non-absent
result — `parse_soap_note` is absent exactly when all four sections are
empty after the scan, and when it is non-absent its fields are exactly the
scanned sections (so a recognized section with collected content is
populated). -/
theorem parse_soap_note_characterization (content : String) :
    ((∀ line ∈ pySplitLines content, parserHeaderOf line = none) →
        parse_soap_note content = none)
      ∧ (parse_soap_note content = none ↔
          (parseSections content).subjective = "" ∧
            (parseSections content).objective = "" ∧
            (parseSections content).assessment = "" ∧
            (parseSections content).plan = "")
      ∧ (parse_soap_note content ≠ none →
          parse_soap_note content =
            some ⟨(parseSections content).subjective,
              (parseSections content).objective,
              (parseSections content).assessment,
              (parseSections content).plan⟩) := by
  refine ⟨?_, ?_, ?_⟩
  · intro h
    unfold parse_soap_note parseSections
    rw [foldl_parseStep_no_header (pySplitLines content) ⟨{}, none, []⟩ h rfl]
    simp [flushInto]
  · unfold parse_soap_note
    by_cases h : (parseSections content).subjective = "" ∧
        (parseSections content).objective = "" ∧
        (parseSections content).assessment = "" ∧
        (parseSections content).plan = ""
    · simp [h]
    · simp [h]
  · intro hne
    unfold parse_soap_note at hne ⊢
    by_cases h : (parseSections content).subjective = "" ∧
        (parseSections content).objective = "" ∧
        (parseSections content).assessment = "" ∧
        (parseSections content).plan = ""
    · exact absurd (by simp [h]) hne
    · simp [h]

/-- Witness for C4 amended at the empty text: no line of `""` is a header,
and `parse_soap_note ""` is absent. -/
theorem parse_soap_note_characterization_witness : parse_soap_note "" = none :=
  (parse_soap_note_characterization "").1 (by decide)

/-- C5 counterexample: the line `S:` is classified as a Subjective header by
the SOAP parser (abbreviated marker `s:`) but is not a header for the
facade's fallback re-scan, which tests only the full-word markers. -/
theorem header_scan_divergence :
    fallbackHeaderOf "S:" = none ∧ parserHeaderOf "S:" = some Section.subjective := by
  decide

/-- C5 amended: the fallback re-scan recognizes only the four full-word
markers, not the abbreviated forms; on every line whose lowercased trimmed
form contains none of the abbreviated markers `s:`, `o:`, `a:`, `p:`, the
fallback scan and the SOAP parser classify the line identically. -/
theorem header_scans_agree_without_abbreviations (line : String)
    (h1 : pyContains (pyStrip (pyLower line)) "s:" = false)
    (h2 : pyContains (pyStrip (pyLower line)) "o:" = false)
    (h3 : pyContains (pyStrip (pyLower line)) "a:" = false)
    (h4 : pyContains (pyStrip (pyLower line)) "p:" = false) :
    fallbackHeaderOf line = parserHeaderOf line := by
  unfold fallbackHeaderOf parserHeaderOf
  simp only [h1, h2, h3, h4, Bool.or_false]

/-- Witness for C5 amended: the line `Plan` contains no abbreviated marker,
and both scans classify it as a Plan header. -/
theorem header_scans_agree_witness :
    fallbackHeaderOf "Plan" = parserHeaderOf "Plan" :=
  header_scans_agree_without_abbreviations "Plan" rfl rfl rfl rfl

/-- C6: for an existing patient with zero notes, the orchestration returns
the fixed no-notes summary with note count 0 and the unchanged store, and
its result does not depend on the configuration or on the provider transport
(provider selection and the generation facade are never consulted). -/
theorem zero_notes_short_circuit (today : PyDate) (s s' : Settings)
    (call call' : ProviderCall) (db : Store) (patient_id : Int)
    (options : Option SummaryOptions) (patient : Patient)
    (hp : (PatientRepository.get_by_id db patient_id).1 = some patient)
    (hn : (NoteRepository.get_by_patient_id db patient_id).1 = []) :
    generate_patient_summary today s call db patient_id options =
        (some ⟨⟨patient.name, calculate_age today patient.date_of_birth,
                "MRN-" ++ pyFormat06d patient_id⟩,
              s!"No clinical notes available for {patient.name}.", 0⟩, db)
      ∧ generate_patient_summary today s call db patient_id options =
          generate_patient_summary today s' call' db patient_id options := by
  have hdb : (PatientRepository.get_by_id db patient_id).2 = db := rfl
  have hmain : ∀ s₀ : Settings, ∀ call₀ : ProviderCall,
      generate_patient_summary today s₀ call₀ db patient_id options =
        (some ⟨⟨patient.name, calculate_age today patient.date_of_birth,
                "MRN-" ++ pyFormat06d patient_id⟩,
              s!"No clinical notes available for {patient.name}.", 0⟩, db) := by
    intro s₀ call₀
    have hdb2 : (NoteRepository.get_by_patient_id db patient_id).2 = db := rfl
    simp only [generate_patient_summary, hp, hdb, hdb2, hn]
    simp
  exact ⟨hmain s call, by rw [hmain s call, hmain s' call']⟩

/-- Witness for C6 at a concrete store: one patient, no notes; two transports
that differ (one succeeds, one fails) give the same fixed summary. -/
theorem zero_notes_short_circuit_witness :
    generate_patient_summary ⟨2024, 6, 15⟩ ⟨"ollama", none, none⟩
        (fun _ _ _ _ _ _ => .ok "llm text")
        ⟨[⟨1, "Ann Example", ⟨1990, 6, 16⟩⟩], []⟩ 1 none =
      (some ⟨⟨"Ann Example", 33, "MRN-000001"⟩,
          "No clinical notes available for Ann Example.", 0⟩,
        ⟨[⟨1, "Ann Example", ⟨1990, 6, 16⟩⟩], []⟩) :=
  (zero_notes_short_circuit ⟨2024, 6, 15⟩ ⟨"ollama", none, none⟩
      ⟨"openai", none, none⟩ (fun _ _ _ _ _ _ => .ok "llm text")
      (fun _ _ _ _ _ _ => .error (.transportError "connection refused"))
      ⟨[⟨1, "Ann Example", ⟨1990, 6, 16⟩⟩], []⟩ 1 none
      ⟨1, "Ann Example", ⟨1990, 6, 16⟩⟩ rfl
      (by simp [NoteRepository.get_by_patient_id])).1

/-- C7: the async job wrapper is a total function into structured payloads —
for every orchestration outcome it acquires exactly one session and releases
exactly one session (also on the exception path), and its payload is
`completed` with the heading fields, summary and note count on success,
`PATIENT_NOT_FOUND` when the patient is absent (returned, not raised), and
`GENERATION_FAILED` with the exception's message on any orchestration
exception. -/
theorem task_payload_and_session (orch : Except String (Option SummaryResponse))
    (ctr : SessionCtr) :
    ((generate_summary_task orch ctr).2.opened = ctr.opened + 1 ∧
        (generate_summary_task orch ctr).2.closed = ctr.closed + 1)
      ∧ (∀ r, orch = .ok (some r) →
          (generate_summary_task orch ctr).1 =
            .completed r.heading.name r.heading.age r.heading.mrn r.summary
              r.note_count)
      ∧ (orch = .ok none →
          (generate_summary_task orch ctr).1 =
            .error "Patient not found" "PATIENT_NOT_FOUND")
      ∧ (∀ e, orch = .error e →
          (generate_summary_task orch ctr).1 = .error e "GENERATION_FAILED") := by
  refine ⟨⟨?_, ?_⟩, ?_, ?_, ?_⟩ <;>
    cases orch with
    | error e => simp [generate_summary_task]
    | ok r? => cases r? <;> simp [generate_summary_task]

/-- Witness for C7 on a concrete exceptional orchestration outcome: the
session balance and the `GENERATION_FAILED` payload. -/
theorem task_payload_and_session_witness :
    (generate_summary_task (.error "boom") ⟨0, 0⟩).2.opened = 1 ∧
      (generate_summary_task (.error "boom") ⟨0, 0⟩).1 =
        .error "boom" "GENERATION_FAILED" :=
  ⟨((task_payload_and_session (.error "boom") ⟨0, 0⟩).1).1,
    (task_payload_and_session (.error "boom") ⟨0, 0⟩).2.2.2 "boom" rfl⟩

/-- C8: provider selection raises a configuration error when a hosted
backend (openai or anthropic) is configured without its API key, raises an
unsupported-provider error for every name outside the three known
identifiers, and in the missing-credential case no transport invocation can
occur — the facade's output is then independent of the transport
behaviour. -/
theorem provider_selection_errors (s : Settings) :
    (pyLower s.LLM_PROVIDER = "openai" → pyTruthyOptStr s.OPENAI_API_KEY = false →
        get_llm_provider s =
          .error (.configError "OPENAI_API_KEY required for OpenAI provider"))
      ∧ (pyLower s.LLM_PROVIDER = "anthropic" →
          pyTruthyOptStr s.ANTHROPIC_API_KEY = false →
          get_llm_provider s =
            .error (.configError "ANTHROPIC_API_KEY required for Anthropic provider"))
      ∧ (pyLower s.LLM_PROVIDER ≠ "ollama" → pyLower s.LLM_PROVIDER ≠ "openai" →
          pyLower s.LLM_PROVIDER ≠ "anthropic" →
          get_llm_provider s =
            .error (.unsupportedProvider
              ("Unsupported LLM provider: " ++ pyLower s.LLM_PROVIDER)))
      ∧ (∀ (call call' : ProviderCall) (patient_name : String) (age : Int)
          (notes_text audience : String) (max_length : Int),
          pyLower s.LLM_PROVIDER = "openai" →
          pyTruthyOptStr s.OPENAI_API_KEY = false →
          generate_summary s call patient_name age notes_text audience max_length =
            generate_summary s call' patient_name age notes_text audience max_length) := by
  refine ⟨?_, ?_, ?_, ?_⟩
  · intro hname hkey
    have hne : pyLower s.LLM_PROVIDER ≠ "ollama" := by rw [hname]; decide
    simp [get_llm_provider, hname, hne, hkey]
  · intro hname hkey
    have hne1 : pyLower s.LLM_PROVIDER ≠ "ollama" := by rw [hname]; decide
    have hne2 : pyLower s.LLM_PROVIDER ≠ "openai" := by rw [hname]; decide
    simp [get_llm_provider, hname, hne1, hne2, hkey]
  · intro h1 h2 h3
    simp [get_llm_provider, h1, h2, h3]
  · intro call call' patient_name age notes_text audience max_length hname hkey
    have hsel : get_llm_provider s =
        .error (.configError "OPENAI_API_KEY required for OpenAI provider") := by
      have hne : pyLower s.LLM_PROVIDER ≠ "ollama" := by rw [hname]; decide
      simp [get_llm_provider, hname, hne, hkey]
    simp [generate_summary, hsel]

/-- Witness for C8 at a concrete configuration: openai selected with no API
key yields the configuration error, and the facade's answer is the same for
a succeeding and a failing transport. -/
theorem provider_selection_errors_witness :
    get_llm_provider ⟨"openai", none, some "anthropic-key"⟩ =
        .error (.configError "OPENAI_API_KEY required for OpenAI provider")
      ∧ generate_summary ⟨"openai", none, some "anthropic-key"⟩
          (fun _ _ _ _ _ _ => .ok "llm text") "Ann Example" 30 "notes" "family" 500 =
        generate_summary ⟨"openai", none, some "anthropic-key"⟩
          (fun _ _ _ _ _ _ => .error (.transportError "connection refused"))
          "Ann Example" 30 "notes" "family" 500 :=
  ⟨(provider_selection_errors ⟨"openai", none, some "anthropic-key"⟩).1 rfl rfl,
    (provider_selection_errors ⟨"openai", none, some "anthropic-key"⟩).2.2.2
      (fun _ _ _ _ _ _ => .ok "llm text")
      (fun _ _ _ _ _ _ => .error (.transportError "connection refused"))
      "Ann Example" 30 "notes" "family" 500 rfl rfl⟩

/-- C10: summary generation is read-only on the stores — both the
orchestration and the async job wrapper return the store they were given,
for every input and every outcome (the service composes only the repository
reads `get_by_id` and `get_by_patient_id`, never `create` or
`delete_by_patient_id`). -/
theorem summary_generation_read_only (today : PyDate) (s : Settings)
    (call : ProviderCall) (db : Store) (patient_id : Int)
    (options : Option SummaryOptions) (audience : String) (max_length : Int) :
    (generate_patient_summary today s call db patient_id options).2 = db
      ∧ (generate_summary_task_db today s call db patient_id audience
          max_length).2 = db := by
  have hmain : ∀ opts : Option SummaryOptions,
      (generate_patient_summary today s call db patient_id opts).2 = db := by
    intro opts
    have hdb : (PatientRepository.get_by_id db patient_id).2 = db := rfl
    have hdb2 : (NoteRepository.get_by_patient_id db patient_id).2 = db := rfl
    cases hfind : (PatientRepository.get_by_id db patient_id).1 with
    | none => simp [generate_patient_summary, hfind, hdb]
    | some patient => simp [generate_patient_summary, hfind, hdb, hdb2]
  refine ⟨hmain options, ?_⟩
  have h2 := hmain (some ⟨audience, max_length⟩)
  cases hres : (generate_patient_summary today s call db patient_id
      (some ⟨audience, max_length⟩)).1 with
  | none => simp [generate_summary_task_db, hres, h2]
  | some r => simp [generate_summary_task_db, hres, h2]

end MedBackend
